import Mathlib

/-
Shallow embedding of the movement / collision / character-state engine of
the toads-adventure-py repository (src/config.py, src/tileset.py,
src/map.py, src/characters.py, src/toads_adventure.py).

Modelling conventions:
* Python ints are modelled as ℤ; Python floats (velocities, speed caps,
  acceleration constants) are modelled as ℚ — every float operation the
  engine performs on them (addition, subtraction, negation, comparison,
  ceiling) is exact on the dyadic rationals involved, so ℚ is a faithful
  model.
* Python 2 integer division `/` is floor division; for the positive
  divisors used by this code (tile sizes, the minimum-pixels constant)
  Lean's Int division (Euclidean) coincides with it, as does `%`.
* Statements such as `self.dx == 0.0` appearing on their own line in the
  source (characters.py lines 176, 181, 242, 251) are comparisons, not
  assignments: they have no effect and are translated as no-ops.
* Methods that only render, sleep, or play audio (draw, poseAndPause's
  blit/flip/sleep) have no effect on the modelled state and are omitted.
-/

namespace Toads

/-! ## config.py constants -/

def MAP_TILE_SIZE : ℤ := 16

def CHARACTER_TILE_SIZE : ℤ := 32

/-- Tiles that are considered non-solid (config.py NON_SOLID_TILES). -/
def NON_SOLID_TILES : List ℤ :=
  [21, 22, 23, 24, 25, 26, 37, 38, 39, 44, 57, 62,
   63, 64, 65, 72, 73, 80, 81, 82, 83, 84, 85, 86,
   87, 88, 90, 91, 94, 95, 99, 100, 101, 102, 103,
   104, 105, 106, 108, 111, 112, 113, 114, 126]

/-- Tiles solid on top only (config.py TOP_SOLID_TILES). -/
def TOP_SOLID_TILES : List ℤ :=
  [3, 4, 5, 6, 7, 8, 9, 10, 11, 27, 28, 29, 40, 41,
   42, 43, 45, 46, 47, 58, 59, 60, 61, 76, 77, 78,
   79, 96, 130, 131]

/-- Icy tiles (config.py ICY_TILES). -/
def ICY_TILES : List ℤ :=
  [12, 13, 14, 15, 27, 28, 29, 30, 31, 32, 33, 48,
   49, 50, 51, 66, 67, 68, 129]

/-- Climbable tiles (config.py CLIMBABLE_TILES). -/
def CLIMBABLE_TILES : List ℤ := [57, 73, 90, 91, 108]

-- Character type IDs (config.py): PLAYER, SHY_GUY_RED, ... = range(10)
def PLAYER : ℤ := 0
def SHY_GUY_RED : ℤ := 1
def SHY_GUY_BLUE : ℤ := 2
def NINJI : ℤ := 3
def FLURRY : ℤ := 4
def SPARK : ℤ := 5
def PORCUPO : ℤ := 6
def ALBATOSS : ℤ := 7
def POKEY : ℤ := 8
def PHANTO : ℤ := 9

def FIRST_PLAYER_TILE_BIG : ℤ := 0
def FIRST_PLAYER_TILE_SMALL : ℤ := 10

def DEFAULT_WIDTH_OFFSET : ℤ := 10
def DEFAULT_HEIGHT_OFFSET : ℤ := 13
def PLAYER_WIDTH_OFFSET : ℤ := 9
def PLAYER_HEIGHT_OFFSET_BIG : ℤ := 6
def PLAYER_HEIGHT_OFFSET_SMALL : ℤ := 13

def DEFAULT_STANCES : ℤ := 2
def PLAYER_STANCES : ℤ := 3

def PLAYER_JUMPING_STANCE : ℤ := 2

def MINIMUM_PIXELS_PER_FRAME : ℤ := 2

def DEFAULT_PIXELS_PER_STANCE_CHANGE : ℤ := 16

def PLAYER_ACCELERATION_RATE : ℚ := 1
def DEFAULT_NPC_ACCELERATION_RATE : ℚ := 1/2

def DEFAULT_FRICTION_PER_FRAME : ℚ := 1/2
def ICE_FRICTION_PER_FRAME : ℚ := 1/4

def GRAVITY_PER_FRAME : ℚ := 1/2

def PLAYER_MAX_SPEED_X : ℚ := 6
def PLAYER_MAX_SPEED_Y : ℚ := 7
def DEFAULT_NPC_MAX_SPEED_X : ℚ := 1/2
def DEFAULT_NPC_MAX_SPEED_Y : ℚ := 7

def INVINCIBILITY_AFTER_DAMAGE : ℤ := 150

/-! ## tileset.py -/

namespace Tileset

/-- tileset.py isSolid: membership in SOLID_TILES, which config.py builds
as set(range(144)) minus NON_SOLID_TILES and TOP_SOLID_TILES. -/
def isSolid (tileNum : ℤ) : Bool :=
  decide (0 ≤ tileNum) && decide (tileNum < 144) &&
    !(NON_SOLID_TILES.contains tileNum) && !(TOP_SOLID_TILES.contains tileNum)

/-- tileset.py isNonSolid: membership in NON_SOLID_TILES, or the -1
sentinel (the source's `tileNum is -1`, identity on a cached small int). -/
def isNonSolid (tileNum : ℤ) : Bool :=
  NON_SOLID_TILES.contains tileNum || tileNum == -1

/-- tileset.py isIcy. -/
def isIcy (tileNum : ℤ) : Bool := ICY_TILES.contains tileNum

/-- tileset.py getTileCoordsAt for the map tileset (tileSize is
MAP_TILE_SIZE); Python 2 `/` on ints is floor division, which Lean's
Int division matches for this positive divisor. -/
def getTileCoordsAt (x y : ℤ) : ℤ × ℤ :=
  (x / MAP_TILE_SIZE, y / MAP_TILE_SIZE)

end Tileset

/-! ## map.py -/

/-- map.py Map: the per-level tile grid (self.map is a list of rows,
indexed self.map[y][x]) plus the data the claims need. -/
structure Map where
  mapWidth : ℤ
  mapHeight : ℤ
  grid : ℤ → ℤ → ℤ  -- grid y x models self.map[y][x] (y row, x column)
  playerStartingPosition : ℤ × ℤ

namespace Map

/-- map.py getTileNumber: -1 sentinel outside [0,mapWidth) x [0,mapHeight). -/
def getTileNumber (m : Map) (x y : ℤ) : ℤ :=
  if x < 0 ∨ y < 0 ∨ x ≥ m.mapWidth ∨ y ≥ m.mapHeight then -1
  else m.grid y x

/-- map.py getTileNumberAt: pixel coordinates to tile number. -/
def getTileNumberAt (m : Map) (x y : ℤ) : ℤ :=
  let c := Tileset.getTileCoordsAt x y
  m.getTileNumber c.1 c.2

/-- map.py isSolidAt. -/
def isSolidAt (m : Map) (x y : ℤ) : Bool :=
  Tileset.isSolid (m.getTileNumberAt x y)

/-- map.py isNonSolidAt. -/
def isNonSolidAt (m : Map) (x y : ℤ) : Bool :=
  Tileset.isNonSolid (m.getTileNumberAt x y)

end Map

/-! ## characters.py GameCharacter -/

/-- characters.py GameCharacter state (fields set in __init__); the
trailing invincibilityTimer field belongs to the PlayerCharacter
subclass (characters.py line 483) and is unused by base-class methods. -/
@[ext]
structure GameCharacter where
  ID : ℤ
  maxSpeedX : ℚ
  maxSpeedY : ℚ
  accelerationRate : ℚ
  firstTile : ℤ
  stances : ℤ
  widthOffset : ℤ
  heightOffset : ℤ
  map : Map
  x : ℤ
  y : ℤ
  facingRight : Bool
  dx : ℚ
  dy : ℚ
  currentStance : ℤ
  moveCount : ℤ
  isCrouching : Bool
  isClimbing : Bool
  isFlying : Bool
  invincibilityTimer : ℤ

namespace GameCharacter

/-- characters.py pushX (lines 106-115). -/
def pushX (s : GameCharacter) (ddx : ℚ) : GameCharacter :=
  let dx1 := s.dx + ddx
  if dx1 > 0 then
    if dx1 > s.maxSpeedX then { s with dx := s.maxSpeedX, facingRight := true }
    else { s with dx := dx1, facingRight := true }
  else if dx1 < 0 then
    if dx1 < s.maxSpeedX * (-1) then
      { s with dx := s.maxSpeedX * (-1), facingRight := false }
    else { s with dx := dx1, facingRight := false }
  else { s with dx := dx1 }

/-- characters.py pushY (lines 127-132). -/
def pushY (s : GameCharacter) (ddy : ℚ) : GameCharacter :=
  let dy1 := s.dy + ddy
  if dy1 > s.maxSpeedY then { s with dy := s.maxSpeedY }
  else if dy1 < s.maxSpeedY * (-1) then { s with dy := s.maxSpeedY * (-1) }
  else { s with dy := dy1 }

/-- characters.py left. -/
def left (s : GameCharacter) : GameCharacter :=
  s.pushX (s.accelerationRate * (-1))

/-- characters.py right. -/
def right (s : GameCharacter) : GameCharacter :=
  s.pushX s.accelerationRate

/-- characters.py getTileNumberBehind (lines 411-413). -/
def getTileNumberBehind (s : GameCharacter) : ℤ :=
  s.map.getTileNumberAt (s.x + CHARACTER_TILE_SIZE / 2)
    (s.y + CHARACTER_TILE_SIZE - 1)

/-- characters.py getTileNumberBelow (lines 426-428). -/
def getTileNumberBelow (s : GameCharacter) : ℤ :=
  s.map.getTileNumberAt (s.x + CHARACTER_TILE_SIZE / 2)
    (s.y + CHARACTER_TILE_SIZE + 1)

/-- characters.py onIce. -/
def onIce (s : GameCharacter) : Bool :=
  ICY_TILES.contains s.getTileNumberBelow

/-- characters.py applyFriction (lines 168-183). The source lines 176 and
181 read `self.dx == 0.0`: a comparison expression with no effect, so the
branch in which the remaining speed is smaller than the friction magnitude
leaves dx unchanged. -/
def applyFriction (s : GameCharacter) : GameCharacter :=
  if s.isFlying then s
  else
    let frictionPerFrame :=
      if s.onIce then ICE_FRICTION_PER_FRAME else DEFAULT_FRICTION_PER_FRAME
    if s.dx > 0 then
      if s.dx - frictionPerFrame < 0 then s
      else s.pushX (frictionPerFrame * (-1))
    else if s.dx < 0 then
      if s.dx + frictionPerFrame > 0 then s
      else s.pushX frictionPerFrame
    else s

/-- characters.py applyGravity (lines 195-197). -/
def applyGravity (s : GameCharacter) : GameCharacter :=
  if !s.isClimbing && !s.isFlying then s.pushY GRAVITY_PER_FRAME else s

/-- The eight fully-solid sample-point tests of characters.py isColliding
(lines 296-311): four corners, the two side midpoints, and the top and
bottom midpoints of the footprint. -/
def solidCollision (s : GameCharacter) (x y : ℤ) : Bool :=
  let leftE := x + s.widthOffset
  let rightE := x + (CHARACTER_TILE_SIZE - 1) - s.widthOffset
  let topE := y + s.heightOffset
  let bottomE := y + (CHARACTER_TILE_SIZE - 1)
  let midX := x + CHARACTER_TILE_SIZE / 2
  let midY := y + CHARACTER_TILE_SIZE / 2
  s.map.isSolidAt leftE topE || s.map.isSolidAt rightE topE ||
    s.map.isSolidAt leftE bottomE || s.map.isSolidAt rightE bottomE ||
    s.map.isSolidAt leftE midY || s.map.isSolidAt rightE midY ||
    s.map.isSolidAt midX topE || s.map.isSolidAt midX bottomE

/-- characters.py isColliding (lines 295-321): the eight fully-solid
sample tests, then — only when `self.dy >= 0` — the top-solid test under
the bottom-left and bottom-right samples. -/
def isColliding (s : GameCharacter) (x y : ℤ) : Bool :=
  let leftE := x + s.widthOffset
  let rightE := x + (CHARACTER_TILE_SIZE - 1) - s.widthOffset
  let bottomE := y + (CHARACTER_TILE_SIZE - 1)
  if s.solidCollision x y then true
  else if decide (s.dy ≥ 0) &&
      (TOP_SOLID_TILES.contains (s.map.getTileNumberAt leftE bottomE) ||
       TOP_SOLID_TILES.contains (s.map.getTileNumberAt rightE bottomE)) then
    true
  else false

/-- characters.py isOverlapping (lines 335-347). -/
def isOverlapping (s other : GameCharacter) : Bool :=
  let selfLeft := s.x + s.widthOffset
  let selfRight := s.x + (CHARACTER_TILE_SIZE - 1) - s.widthOffset
  let selfTop := s.y + s.heightOffset
  let selfBottom := s.y + (CHARACTER_TILE_SIZE - 1)
  let otherLeft := other.x + other.widthOffset
  let otherRight := other.x + (CHARACTER_TILE_SIZE - 1) - other.widthOffset
  let otherTop := other.y + other.heightOffset
  let otherBottom := other.y + (CHARACTER_TILE_SIZE - 1)
  decide (selfRight ≥ otherLeft) && decide (selfLeft ≤ otherRight) &&
    decide (selfTop ≤ otherBottom) && decide (selfBottom ≥ otherTop)

/-- characters.py onGround. -/
def onGround (s : GameCharacter) : Bool :=
  s.isColliding s.x (s.y + 1)

/-- characters.py willFall (lines 360-371, the non-commented code path). -/
def willFall (s : GameCharacter) : Bool :=
  let leftE := s.x
  let rightE := s.x + CHARACTER_TILE_SIZE + 1
  let bottomE := s.y + CHARACTER_TILE_SIZE + 1
  s.onGround && ((s.facingRight && s.map.isNonSolidAt rightE bottomE) ||
                 (!s.facingRight && s.map.isNonSolidAt leftE bottomE))

/-- characters.py jump (lines 209-211). -/
def jump (s : GameCharacter) : GameCharacter :=
  if s.onGround then s.pushY (s.maxSpeedY * (-2)) else s

/-- characters.py roundUp (lines 443-445): smallest multiple of
MINIMUM_PIXELS_PER_FRAME that is >= ceil(n); Python 2 floor division
agrees with Lean Int division for the positive divisor. -/
def roundUp (n : ℚ) : ℤ :=
  let minimum := MINIMUM_PIXELS_PER_FRAME
  ((⌈n⌉ + (minimum - 1)) / minimum) * minimum

/-- The horizontal stepping loop of characters.py move (lines 239-246):
`for x in range(absX)`, stopping at the first predicted collision.
Returns the final x together with pixelsMoved. -/
def moveX (s : GameCharacter) (signX : ℤ) : ℕ → ℤ → ℕ → ℤ × ℕ
  | 0, x, pixelsMoved => (x, pixelsMoved)
  | n + 1, x, pixelsMoved =>
    if s.isColliding (x + 1 * signX) s.y then (x, pixelsMoved)
    else s.moveX signX n (x + 1 * signX) (pixelsMoved + 1)

/-- The vertical stepping loop of characters.py move (lines 249-254),
run after the horizontal one (x is the already-updated coordinate). -/
def moveY (s : GameCharacter) (x : ℤ) (signY : ℤ) : ℕ → ℤ → ℤ
  | 0, y => y
  | n + 1, y =>
    if s.isColliding x (y + 1 * signY) then y
    else s.moveY x signY n (y + 1 * signY)

/-- The stance bookkeeping of characters.py move (lines 256-278), a
straight-line translation of the sequential assignments: given the pixels
moved horizontally and the (already position-updated) onGround result, it
returns the new (currentStance, moveCount) pair. -/
def stanceUpdate (s : GameCharacter) (pixelsMoved : ℤ) (grounded : Bool) :
    ℤ × ℤ :=
  let mc1 :=
    (s.moveCount + pixelsMoved) % (DEFAULT_PIXELS_PER_STANCE_CHANGE * 2)
  let cs1 :=
    if 0 ≤ mc1 ∧ mc1 < DEFAULT_PIXELS_PER_STANCE_CHANGE then
      if s.currentStance + 1 ≥ s.stances then s.stances - 1
      else s.currentStance + 1
    else if DEFAULT_PIXELS_PER_STANCE_CHANGE ≤ mc1 ∧
        mc1 < DEFAULT_PIXELS_PER_STANCE_CHANGE * 2 then
      if s.currentStance - 1 < 0 then 1 else s.currentStance - 1
    else s.currentStance
  let cs2 := if s.dx = 0 then 0 else cs1
  let mc2 := if s.dx = 0 then 0 else mc1
  let cs3 :=
    if !grounded then
      if s.ID = PLAYER then PLAYER_JUMPING_STANCE
      else if s.ID = NINJI then 1
      else cs2
    else cs2
  let mc3 :=
    if !grounded then
      if s.ID = PLAYER then 0 else mc2
    else mc2
  (cs3, mc3)

/-- characters.py move (lines 225-278). The source lines 242 and 251 read
`self.dx == 0.0` / `self.dy == 0.0`: comparisons with no effect, so move
never writes the velocity fields. -/
def move (s : GameCharacter) : GameCharacter :=
  let absX := roundUp |s.dx|
  let signX : ℤ := if s.dx < 0 then -1 else 1
  let absY := roundUp |s.dy|
  let signY : ℤ := if s.dy < 0 then -1 else 1
  let hres := s.moveX signX absX.toNat s.x 0
  let x1 := hres.1
  let pixelsMoved : ℤ := (hres.2 : ℤ)
  let y1 := s.moveY x1 signY absY.toNat s.y
  -- self.onGround() is evaluated at the already-updated position (x1, y1):
  let res := s.stanceUpdate pixelsMoved (s.isColliding x1 (y1 + 1))
  { s with x := x1, y := y1, currentStance := res.1, moveCount := res.2 }

end GameCharacter

/-! ## characters.py PlayerCharacter -/

namespace PlayerCharacter

/-- characters.py isBig. -/
def isBig (s : GameCharacter) : Bool := s.firstTile == FIRST_PLAYER_TILE_BIG

/-- characters.py isSmall. -/
def isSmall (s : GameCharacter) : Bool :=
  s.firstTile == FIRST_PLAYER_TILE_SMALL

/-- characters.py grow. -/
def grow (s : GameCharacter) : GameCharacter :=
  { s with firstTile := FIRST_PLAYER_TILE_BIG,
           heightOffset := PLAYER_HEIGHT_OFFSET_BIG }

/-- characters.py shrink. -/
def shrink (s : GameCharacter) : GameCharacter :=
  { s with firstTile := FIRST_PLAYER_TILE_SMALL,
           heightOffset := PLAYER_HEIGHT_OFFSET_SMALL }

/-- characters.py isInvincible. -/
def isInvincible (s : GameCharacter) : Bool :=
  decide (s.invincibilityTimer > 0)

/-- characters.py die (lines 795-800); poseAndPause only draws and
sleeps, so the state effect is grow, face right, reset position to the
map's player start, and zero both velocity components. -/
def die (s : GameCharacter) : GameCharacter :=
  let s1 := grow s
  { s1 with facingRight := true,
            x := s.map.playerStartingPosition.1,
            y := s.map.playerStartingPosition.2,
            dx := 0, dy := 0 }

/-- characters.py takeDamage (lines 763-769). -/
def takeDamage (s : GameCharacter) : GameCharacter :=
  if !(isInvincible s) then
    if isSmall s then die s
    else { (shrink s) with invincibilityTimer := INVINCIBILITY_AFTER_DAMAGE }
  else s

end PlayerCharacter

/-! ## characters.py NonPlayerCharacter -/

namespace NonPlayerCharacter

/-- The orientation-change condition at the head of characters.py
NonPlayerCharacter.gameLogic (lines 866-876). -/
def orientationCheck (s : GameCharacter) : Bool :=
  (s.facingRight &&
     s.isColliding (s.x + CHARACTER_TILE_SIZE - s.widthOffset * 3) s.y) ||
  (!s.facingRight && s.isColliding (s.x - 1) s.y) ||
  (s.isFlying &&
     ((!s.facingRight && decide (s.x - 1 ≤ 0)) ||
      (s.facingRight && decide (s.x + CHARACTER_TILE_SIZE - s.widthOffset * 2 ≥
                                  s.map.mapWidth * MAP_TILE_SIZE)))) ||
  (decide (s.ID = SHY_GUY_BLUE) && s.willFall)

/-- The orientation-change block of characters.py
NonPlayerCharacter.gameLogic (lines 866-878): flip facingRight and negate
dx when the check fires. -/
def orientationStep (s : GameCharacter) : GameCharacter :=
  if orientationCheck s then
    { s with facingRight := !s.facingRight, dx := s.dx * (-1) }
  else s

/-- characters.py NonPlayerCharacter.gameLogic (lines 864-893). -/
def gameLogic (s : GameCharacter) : GameCharacter :=
  let s1 := orientationStep s
  let s2 := s1.applyFriction
  let s3 := if s2.facingRight then s2.right else s2.left
  let s4 := s3.applyGravity
  let s5 := if s4.ID = NINJI then s4.jump else s4
  s5.move

end NonPlayerCharacter

/-! ## toads_adventure.py: the NPC portion of ToadsAdventure.gameLogic -/

/-- The `for NPC in self.NPCs` loop of toads_adventure.py gameLogic
(lines 148-157), with Python list-iterator semantics made explicit: the
iterator keeps an index that advances by one each pass; `self.NPCs.remove(NPC)`
(identity-based for these distinct objects) deletes the element at the
current index, shifting later elements left, so the element after a
removed one is skipped. The loop performs at most the initial length many
passes (the index grows by one per pass and the length never grows), so
the structural fuel equal to the initial length makes the recursion exact,
not a truncation. -/
def gameLogicNPCLoop (m : Map) :
    ℕ → GameCharacter → List GameCharacter → ℕ →
      GameCharacter × List GameCharacter
  | 0, player, NPCs, _ => (player, NPCs)
  | fuel + 1, player, NPCs, i =>
    if h : i < NPCs.length then
      let npc := NPCs.get ⟨i, h⟩
      let player1 :=
        if npc.isOverlapping player then PlayerCharacter.takeDamage player
        else player
      if npc.y + npc.heightOffset > m.mapHeight * MAP_TILE_SIZE then
        gameLogicNPCLoop m fuel player1 (NPCs.eraseIdx i) (i + 1)
      else
        gameLogicNPCLoop m fuel player1
          (NPCs.set i (NonPlayerCharacter.gameLogic npc)) (i + 1)
    else (player, NPCs)

/-- One coordinator pass over the NPC roster (toads_adventure.py
gameLogic lines 148-157), returning the updated player and roster. -/
def gameLogicNPCs (m : Map) (player : GameCharacter)
    (NPCs : List GameCharacter) : GameCharacter × List GameCharacter :=
  gameLogicNPCLoop m NPCs.length player NPCs 0

/-! ## Concrete maps and characters used by witnesses and
counterexamples -/

/-- A map whose every tile is 21 (non-solid). -/
def openMap : Map :=
  { mapWidth := 10, mapHeight := 10, grid := fun _ _ => 21,
    playerStartingPosition := (0, 16) }

/-- A map with a solid wall on tile column 2 (pixel columns 32-47),
everything else non-solid. -/
def wallMap : Map :=
  { mapWidth := 10, mapHeight := 10,
    grid := fun _ c => if c = 2 then 1 else 21,
    playerStartingPosition := (0, 16) }

/-- A map with solid ground from tile row 2 (pixel rows 32 and below),
everything above non-solid. -/
def floorMap : Map :=
  { mapWidth := 10, mapHeight := 10,
    grid := fun r _ => if 2 ≤ r then 1 else 21,
    playerStartingPosition := (0, 16) }

/-- A default-parameter walking NPC resting in the open, at rest. -/
def npcAtRest : GameCharacter :=
  { ID := SHY_GUY_RED, maxSpeedX := DEFAULT_NPC_MAX_SPEED_X,
    maxSpeedY := DEFAULT_NPC_MAX_SPEED_Y,
    accelerationRate := DEFAULT_NPC_ACCELERATION_RATE,
    firstTile := 22, stances := DEFAULT_STANCES,
    widthOffset := DEFAULT_WIDTH_OFFSET,
    heightOffset := DEFAULT_HEIGHT_OFFSET, map := openMap,
    x := 64, y := 64, facingRight := true, dx := 0, dy := 0,
    currentStance := 0, moveCount := 0, isCrouching := false,
    isClimbing := false, isFlying := false, invincibilityTimer := 0 }

/-- A walking NPC facing right at x = 9 next to the wall of wallMap: its
right edge sample is at pixel column x + 21, so probing one pixel ahead
(x = 10) samples column 31 (free) while the source's probe at
x + 32 - 3*10 = x + 2 samples column 32 (solid). -/
def npcNearWall : GameCharacter :=
  { npcAtRest with map := wallMap, x := 9, y := 0 }

/-- A character standing on the floor of floorMap (its foot row y + 32
is solid) while moving upward at full speed. -/
def jumpAtCap : GameCharacter :=
  { npcAtRest with map := floorMap, maxSpeedY := 7, x := 64, y := 0,
                   dy := -7 }

/-- The same grounded character at vertical rest. -/
def groundedAtRest : GameCharacter :=
  { jumpAtCap with dy := 0 }

/-- A Big, non-invincible player character. -/
def playerBig : GameCharacter :=
  { ID := PLAYER, maxSpeedX := PLAYER_MAX_SPEED_X,
    maxSpeedY := PLAYER_MAX_SPEED_Y,
    accelerationRate := PLAYER_ACCELERATION_RATE,
    firstTile := FIRST_PLAYER_TILE_BIG, stances := PLAYER_STANCES,
    widthOffset := PLAYER_WIDTH_OFFSET,
    heightOffset := PLAYER_HEIGHT_OFFSET_BIG, map := openMap,
    x := 32, y := 32, facingRight := true, dx := 0, dy := 0,
    currentStance := 0, moveCount := 0, isCrouching := false,
    isClimbing := false, isFlying := false, invincibilityTimer := 0 }

/-- A Small, invincible player character. -/
def playerSmallInvincible : GameCharacter :=
  { playerBig with firstTile := FIRST_PLAYER_TILE_SMALL,
                   heightOffset := PLAYER_HEIGHT_OFFSET_SMALL,
                   invincibilityTimer := 42 }

/-- A Small, non-invincible player character, facing left away from the
start position. -/
def playerSmallVulnerable : GameCharacter :=
  { playerSmallInvincible with invincibilityTimer := 0,
                               facingRight := false, x := 100, y := 50,
                               dx := 0, dy := 0 }

/-- A non-flying character that is neither flying nor on ice, moving
right slower than one friction quantum (characters.py line 171 gives
friction 1/2 on normal ground). -/
def slowSlider : GameCharacter :=
  { npcAtRest with dx := 1/4 }

/-- Two below-the-map NPCs for the roster-removal loop: the map's bottom
pixel bound is mapHeight * 16 = 160, and y + heightOffset = 1013 > 160. -/
def fallenNpcA : GameCharacter :=
  { npcAtRest with x := 200, y := 1000 }

/-- A second, distinct fallen NPC (different x). -/
def fallenNpcB : GameCharacter :=
  { npcAtRest with x := 400, y := 1000 }

/-- A character whose whole footprint lies far outside the map. -/
def farOutChar : GameCharacter :=
  { npcAtRest with x := -1000, y := -1000 }

/-- Specification-side helper: the pixel point (x, y) converts (by the
floor division of Tileset.getTileCoordsAt) to tile coordinates outside
[0, mapWidth) x [0, mapHeight). -/
def Map.outOfBoundsAt (m : Map) (x y : ℤ) : Prop :=
  x / MAP_TILE_SIZE < 0 ∨ y / MAP_TILE_SIZE < 0 ∨
    x / MAP_TILE_SIZE ≥ m.mapWidth ∨ y / MAP_TILE_SIZE ≥ m.mapHeight

instance (m : Map) (x y : ℤ) : Decidable (m.outOfBoundsAt x y) :=
  inferInstanceAs (Decidable (x / MAP_TILE_SIZE < 0 ∨
    y / MAP_TILE_SIZE < 0 ∨ x / MAP_TILE_SIZE ≥ m.mapWidth ∨
    y / MAP_TILE_SIZE ≥ m.mapHeight))

/-! ## Helper lemmas -/

/-- A position that does not collide has no fully-solid sample point. -/
theorem isColliding_false_solid (s : GameCharacter) (x y : ℤ)
    (h : s.isColliding x y = false) : s.solidCollision x y = false := by
  cases hs : s.solidCollision x y with
  | false => rfl
  | true => simp [GameCharacter.isColliding, hs] at h

/-- The horizontal stepping loop commits a pixel only after checking
isColliding at the target, so it preserves solid-sample freedom. -/
theorem moveX_solid (s : GameCharacter) (signX : ℤ) :
    ∀ (n : ℕ) (x : ℤ) (pm : ℕ), s.solidCollision x s.y = false →
      s.solidCollision (s.moveX signX n x pm).1 s.y = false := by
  intro n
  induction n with
  | zero => intro x pm h; exact h
  | succ n ih =>
    intro x pm h
    by_cases hc : s.isColliding (x + 1 * signX) s.y = true
    · simp only [GameCharacter.moveX, hc, if_true]
      exact h
    · rw [Bool.not_eq_true] at hc
      simp only [GameCharacter.moveX, hc, Bool.false_eq_true, if_false]
      exact ih _ _ (isColliding_false_solid s _ _ hc)

/-- The vertical stepping loop likewise preserves solid-sample freedom. -/
theorem moveY_solid (s : GameCharacter) (x signY : ℤ) :
    ∀ (n : ℕ) (y : ℤ), s.solidCollision x y = false →
      s.solidCollision x (s.moveY x signY n y) = false := by
  intro n
  induction n with
  | zero => intro y h; exact h
  | succ n ih =>
    intro y h
    by_cases hc : s.isColliding x (y + 1 * signY) = true
    · simp only [GameCharacter.moveY, hc, if_true]
      exact h
    · rw [Bool.not_eq_true] at hc
      simp only [GameCharacter.moveY, hc, Bool.false_eq_true, if_false]
      exact ih _ (isColliding_false_solid s _ _ hc)

/-! ## Claim theorems -/

/-- C1: an entity whose footprint has no sampled edge point over a fully
solid tile keeps that property across one call to move(), and a top-solid
tile under the bottom-left or bottom-right sample blocks a step only when
dy >= 0 (when dy < 0, isColliding reduces to the fully-solid test). -/
theorem c1_move_solid_invariant (s : GameCharacter) (x y : ℤ)
    (h : s.solidCollision s.x s.y = false) :
    s.solidCollision s.move.x s.move.y = false ∧
      (s.dy < 0 → s.isColliding x y = s.solidCollision x y) := by
  constructor
  · have hx := moveX_solid s (if s.dx < 0 then -1 else 1)
      (GameCharacter.roundUp |s.dx|).toNat s.x 0 h
    have hy := moveY_solid s
      (s.moveX (if s.dx < 0 then -1 else 1)
        (GameCharacter.roundUp |s.dx|).toNat s.x 0).1
      (if s.dy < 0 then -1 else 1) (GameCharacter.roundUp |s.dy|).toNat
      s.y hx
    exact hy
  · intro hdy
    have hnot : ¬ (s.dy ≥ 0) := not_le.mpr hdy
    simp only [GameCharacter.isColliding, decide_eq_true_eq, hnot,
      decide_eq_false, Bool.false_and, Bool.false_eq_true, if_false]
    cases hs : s.solidCollision x y <;> simp [hs]

/-- C1 witness: a resting NPC in the open keeps a solid-free footprint
through move(). -/
theorem c1_witness :
    npcAtRest.solidCollision npcAtRest.move.x npcAtRest.move.y = false ∧
      (npcAtRest.dy < 0 →
        npcAtRest.isColliding 0 0 = npcAtRest.solidCollision 0 0) :=
  c1_move_solid_invariant npcAtRest 0 0 (by decide)

/-- pushX keeps the horizontal speed within the cap when it held before. -/
theorem pushX_dx_le (s : GameCharacter) (d : ℚ)
    (hx : |s.dx| ≤ s.maxSpeedX) : |(s.pushX d).dx| ≤ s.maxSpeedX := by
  have h0 : (0:ℚ) ≤ s.maxSpeedX := (abs_nonneg _).trans hx
  rw [abs_le] at hx ⊢
  unfold GameCharacter.pushX
  simp only [mul_neg_one]
  split_ifs <;> constructor <;> simp only [] <;> linarith

/-- pushX never touches the vertical speed. -/
theorem pushX_dy (s : GameCharacter) (d : ℚ) : (s.pushX d).dy = s.dy := by
  unfold GameCharacter.pushX
  dsimp only
  split_ifs <;> rfl

/-- pushY keeps the vertical speed within the cap when it held before. -/
theorem pushY_dy_le (s : GameCharacter) (d : ℚ)
    (hy : |s.dy| ≤ s.maxSpeedY) : |(s.pushY d).dy| ≤ s.maxSpeedY := by
  have h0 : (0:ℚ) ≤ s.maxSpeedY := (abs_nonneg _).trans hy
  rw [abs_le] at hy ⊢
  unfold GameCharacter.pushY
  simp only [mul_neg_one]
  split_ifs <;> constructor <;> simp only [] <;> linarith

/-- pushY never touches the horizontal speed. -/
theorem pushY_dx (s : GameCharacter) (d : ℚ) : (s.pushY d).dx = s.dx := by
  unfold GameCharacter.pushY
  dsimp only
  split_ifs <;> rfl

/-- C2: after one pushX (the x-axis applyAcceleration), pushY,
applyFriction or applyGravity call, both speed caps still hold, provided
they held before the call. -/
theorem c2_speed_caps (s : GameCharacter) (ddx ddy : ℚ)
    (hx : |s.dx| ≤ s.maxSpeedX) (hy : |s.dy| ≤ s.maxSpeedY) :
    (|(s.pushX ddx).dx| ≤ s.maxSpeedX ∧ |(s.pushX ddx).dy| ≤ s.maxSpeedY) ∧
    (|(s.pushY ddy).dx| ≤ s.maxSpeedX ∧ |(s.pushY ddy).dy| ≤ s.maxSpeedY) ∧
    (|s.applyFriction.dx| ≤ s.maxSpeedX ∧
      |s.applyFriction.dy| ≤ s.maxSpeedY) ∧
    (|s.applyGravity.dx| ≤ s.maxSpeedX ∧
      |s.applyGravity.dy| ≤ s.maxSpeedY) := by
  refine ⟨⟨pushX_dx_le s ddx hx, ?_⟩, ⟨?_, pushY_dy_le s ddy hy⟩, ?_, ?_⟩
  · rw [pushX_dy]; exact hy
  · rw [pushY_dx]; exact hx
  · unfold GameCharacter.applyFriction
    dsimp only
    split_ifs
    · exact ⟨hx, hy⟩
    · exact ⟨hx, hy⟩
    · exact ⟨pushX_dx_le s _ hx, by rw [pushX_dy]; exact hy⟩
    · exact ⟨hx, hy⟩
    · exact ⟨pushX_dx_le s _ hx, by rw [pushX_dy]; exact hy⟩
    · exact ⟨hx, hy⟩
    · exact ⟨pushX_dx_le s _ hx, by rw [pushX_dy]; exact hy⟩
    · exact ⟨hx, hy⟩
    · exact ⟨pushX_dx_le s _ hx, by rw [pushX_dy]; exact hy⟩
    · exact ⟨hx, hy⟩
  · unfold GameCharacter.applyGravity
    split_ifs with hg
    · exact ⟨by rw [pushY_dx]; exact hx, pushY_dy_le s _ hy⟩
    · exact ⟨hx, hy⟩

/-- C2 witness: the caps hold after each operation on a resting NPC
pushed by 3 on either axis. -/
theorem c2_witness :
    (|(npcAtRest.pushX 3).dx| ≤ npcAtRest.maxSpeedX ∧
      |(npcAtRest.pushX 3).dy| ≤ npcAtRest.maxSpeedY) ∧
    (|(npcAtRest.pushY 3).dx| ≤ npcAtRest.maxSpeedX ∧
      |(npcAtRest.pushY 3).dy| ≤ npcAtRest.maxSpeedY) ∧
    (|npcAtRest.applyFriction.dx| ≤ npcAtRest.maxSpeedX ∧
      |npcAtRest.applyFriction.dy| ≤ npcAtRest.maxSpeedY) ∧
    (|npcAtRest.applyGravity.dx| ≤ npcAtRest.maxSpeedX ∧
      |npcAtRest.applyGravity.dy| ≤ npcAtRest.maxSpeedY) :=
  c2_speed_caps npcAtRest 3 3
    (by show |(0:ℚ)| ≤ (1/2 : ℚ); norm_num)
    (by show |(0:ℚ)| ≤ (7 : ℚ); norm_num)

/-- C4: move() never modifies dx or dy (the source's `self.dx == 0.0` and
`self.dy == 0.0` on collision are comparisons with no effect). -/
theorem c4_move_preserves_velocity (s : GameCharacter) :
    s.move.dx = s.dx ∧ s.move.dy = s.dy :=
  ⟨rfl, rfl⟩

/-- C3: the code evaluated at the failing input. A non-flying character
on normal ground with dx = 1/4 (positive but below the friction quantum
1/2) keeps dx = 1/4 across applyFriction(), because the zero-snap branch
of characters.py line 176 is the no-op comparison `self.dx == 0.0`; the
claimed result max(0, |dx| - friction) would be 0. -/
theorem c3_friction_below_quantum_unchanged :
    slowSlider.isFlying = false ∧ slowSlider.onIce = false ∧
      (0:ℚ) < slowSlider.dx ∧
      slowSlider.dx < DEFAULT_FRICTION_PER_FRAME ∧
      slowSlider.applyFriction.dx = slowSlider.dx ∧ slowSlider.dx ≠ 0 := by
  have h1 : slowSlider.onIce = false := by decide
  have h2 : slowSlider.isFlying = false := rfl
  have h3 : slowSlider.dx = 1/4 := rfl
  have hpos : (0:ℚ) < slowSlider.dx := by rw [h3]; norm_num
  have hlt : slowSlider.dx - DEFAULT_FRICTION_PER_FRAME < 0 := by
    rw [h3]; norm_num [DEFAULT_FRICTION_PER_FRAME]
  refine ⟨h2, h1, hpos, ?_, ?_, ?_⟩
  · rw [h3]; norm_num [DEFAULT_FRICTION_PER_FRAME]
  · simp [GameCharacter.applyFriction, h1, h2, hpos, hlt]
  · rw [h3]; norm_num

/-- C5 counterexample: a grounded character whose dy already equals
-maxSpeedY is left completely unchanged by jump(), refuting "jump()
modifies the entity if and only if the entity is grounded". -/
theorem c5_counterexample_grounded_noop :
    jumpAtCap.onGround = true ∧ GameCharacter.jump jumpAtCap = jumpAtCap := by
  have hg : jumpAtCap.onGround = true := by decide
  have hdy : jumpAtCap.dy = -7 := rfl
  have hmax : jumpAtCap.maxSpeedY = 7 := rfl
  refine ⟨hg, ?_⟩
  simp only [GameCharacter.jump, hg, if_true]
  simp only [GameCharacter.pushY, hdy, hmax]
  norm_num
  ext <;> rfl

/-- C5 amended: jump() modifies the entity only if it is grounded (a
non-grounded entity is left unchanged), and a grounded entity at vertical
rest with a positive cap gets dy set to -2*maxSpeedY clamped to exactly
-maxSpeedY; a grounded entity already at dy = -maxSpeedY stays unchanged,
so "modifies" does not hold for every grounded entity. -/
theorem c5_jump_amended (s : GameCharacter) :
    (s.onGround = false → s.jump = s) ∧
      (s.onGround = true → s.dy = 0 → 0 < s.maxSpeedY →
        s.jump.dy = s.maxSpeedY * (-1)) := by
  constructor
  · intro h
    simp [GameCharacter.jump, h]
  · intro h h0 hm
    simp only [GameCharacter.jump, h, if_true, GameCharacter.pushY, h0]
    split_ifs with h1 h2
    · exfalso; rw [zero_add] at h1; linarith
    · rfl
    · exfalso; push_neg at h2; rw [zero_add] at h2; linarith

/-- C5 witness: the grounded at-rest character gets dy = -maxSpeedY. -/
theorem c5_jump_amended_witness :
    groundedAtRest.jump.dy = groundedAtRest.maxSpeedY * (-1) :=
  (c5_jump_amended groundedAtRest).2 (by decide) rfl
    (by show (0:ℚ) < 7; norm_num)

/-- C6 counterexample: a non-flying, non-ledge-avoiding NPC facing right
next to a wall flips orientation (and negates dx) although moving one
pixel ahead would not collide — the facing-right probe of characters.py
line 866-869 sits at x + CHARACTER_TILE_SIZE - 3*widthOffset = x + 2, not
x + 1. -/
theorem c6_counterexample_early_flip :
    npcNearWall.isFlying = false ∧ npcNearWall.ID ≠ SHY_GUY_BLUE ∧
      npcNearWall.facingRight = true ∧
      npcNearWall.isColliding (npcNearWall.x + 1) npcNearWall.y = false ∧
      (NonPlayerCharacter.orientationStep npcNearWall).facingRight = false ∧
      (NonPlayerCharacter.orientationStep npcNearWall).dx =
        npcNearWall.dx * (-1) := by
  have h : NonPlayerCharacter.orientationCheck npcNearWall = true := by
    decide
  have h1 : npcNearWall.isFlying = false := by decide
  have h2 : npcNearWall.ID ≠ SHY_GUY_BLUE := by decide
  have h3 : npcNearWall.facingRight = true := by decide
  have h4 : npcNearWall.isColliding (npcNearWall.x + 1) npcNearWall.y =
      false := by decide
  have h5 : (NonPlayerCharacter.orientationStep npcNearWall).facingRight =
      false := by simp [NonPlayerCharacter.orientationStep, h, h3]
  have h6 : (NonPlayerCharacter.orientationStep npcNearWall).dx =
      npcNearWall.dx * (-1) := by simp [NonPlayerCharacter.orientationStep, h]
  exact ⟨h1, h2, h3, h4, h5, h6⟩

/-- C6 amended: for a non-flying NPC that is not the ledge-avoiding blue
Shy Guy and has the default width offset, the orientation block flips
facingRight and negates dx exactly when isColliding holds one pixel ahead
while facing left, but exactly when isColliding holds two pixels ahead
(the source probe x + CHARACTER_TILE_SIZE - 3*widthOffset) while facing
right. -/
theorem c6_flip_condition (s : GameCharacter) (hf : s.isFlying = false)
    (hid : s.ID ≠ SHY_GUY_BLUE) (hw : s.widthOffset = DEFAULT_WIDTH_OFFSET) :
    ((NonPlayerCharacter.orientationStep s).facingRight = !s.facingRight ∧
        (NonPlayerCharacter.orientationStep s).dx = s.dx * (-1)) ↔
      (if s.facingRight then s.isColliding (s.x + 2) s.y
       else s.isColliding (s.x - 1) s.y) = true := by
  have hprobe : s.x + CHARACTER_TILE_SIZE - s.widthOffset * 3 = s.x + 2 := by
    rw [hw]; unfold CHARACTER_TILE_SIZE DEFAULT_WIDTH_OFFSET; ring
  have hcheck : NonPlayerCharacter.orientationCheck s =
      (if s.facingRight then s.isColliding (s.x + 2) s.y
       else s.isColliding (s.x - 1) s.y) := by
    unfold NonPlayerCharacter.orientationCheck
    rw [hprobe, hf, decide_eq_false hid]
    cases hfr : s.facingRight <;> simp
  unfold NonPlayerCharacter.orientationStep
  rw [hcheck]
  cases hc : (if s.facingRight then s.isColliding (s.x + 2) s.y
              else s.isColliding (s.x - 1) s.y) <;>
    cases hfr : s.facingRight <;> simp [hfr]

/-- C6 witness for the amended flip condition, at the NPC by the wall. -/
theorem c6_flip_condition_witness :
    ((NonPlayerCharacter.orientationStep npcNearWall).facingRight =
          !npcNearWall.facingRight ∧
        (NonPlayerCharacter.orientationStep npcNearWall).dx =
          npcNearWall.dx * (-1)) ↔
      (if npcNearWall.facingRight then
        npcNearWall.isColliding (npcNearWall.x + 2) npcNearWall.y
       else npcNearWall.isColliding (npcNearWall.x - 1) npcNearWall.y) =
        true :=
  c6_flip_condition npcNearWall rfl (by decide) rfl

/-- C7: takeDamage() is a no-op while the invincibility timer is
positive; on a Big non-invincible player it shrinks to Small and sets the
timer to exactly INVINCIBILITY_AFTER_DAMAGE; on a Small non-invincible
player it runs die(), which resets to Big, facing right, at the map's
player start position, with both velocity components zero. -/
theorem c7_take_damage (s : GameCharacter) :
    (PlayerCharacter.isInvincible s = true →
      PlayerCharacter.takeDamage s = s) ∧
    (PlayerCharacter.isInvincible s = false →
      PlayerCharacter.isBig s = true →
        PlayerCharacter.isSmall (PlayerCharacter.takeDamage s) = true ∧
        (PlayerCharacter.takeDamage s).invincibilityTimer =
          INVINCIBILITY_AFTER_DAMAGE) ∧
    (PlayerCharacter.isInvincible s = false →
      PlayerCharacter.isSmall s = true →
        PlayerCharacter.takeDamage s = PlayerCharacter.die s ∧
        (PlayerCharacter.takeDamage s).firstTile = FIRST_PLAYER_TILE_BIG ∧
        (PlayerCharacter.takeDamage s).facingRight = true ∧
        (PlayerCharacter.takeDamage s).x = s.map.playerStartingPosition.1 ∧
        (PlayerCharacter.takeDamage s).y = s.map.playerStartingPosition.2 ∧
        (PlayerCharacter.takeDamage s).dx = 0 ∧
        (PlayerCharacter.takeDamage s).dy = 0) := by
  refine ⟨?_, ?_, ?_⟩
  · intro hinv
    simp [PlayerCharacter.takeDamage, hinv]
  · intro hinv hbig
    have hb : s.firstTile = FIRST_PLAYER_TILE_BIG := by
      rwa [PlayerCharacter.isBig, beq_iff_eq] at hbig
    have hsm : PlayerCharacter.isSmall s = false := by
      rw [PlayerCharacter.isSmall, hb]
      decide
    have hne : s.firstTile ≠ FIRST_PLAYER_TILE_SMALL := by
      rw [hb]; decide
    constructor
    · simp [PlayerCharacter.takeDamage, hinv, hsm, hne,
        PlayerCharacter.shrink, PlayerCharacter.isSmall]
    · simp [PlayerCharacter.takeDamage, hinv, hsm, hne,
        PlayerCharacter.shrink]
  · intro hinv hsml
    have hd : PlayerCharacter.takeDamage s = PlayerCharacter.die s := by
      simp [PlayerCharacter.takeDamage, hinv, hsml]
    rw [hd]
    exact ⟨rfl, rfl, rfl, rfl, rfl, rfl, rfl⟩

/-- C7 witness: the three scenarios at concrete player states. -/
theorem c7_take_damage_witness :
    (PlayerCharacter.takeDamage playerSmallInvincible =
      playerSmallInvincible) ∧
    (PlayerCharacter.isSmall (PlayerCharacter.takeDamage playerBig) = true ∧
      (PlayerCharacter.takeDamage playerBig).invincibilityTimer =
        INVINCIBILITY_AFTER_DAMAGE) ∧
    (PlayerCharacter.takeDamage playerSmallVulnerable =
        PlayerCharacter.die playerSmallVulnerable ∧
      (PlayerCharacter.takeDamage playerSmallVulnerable).firstTile =
        FIRST_PLAYER_TILE_BIG ∧
      (PlayerCharacter.takeDamage playerSmallVulnerable).facingRight =
        true ∧
      (PlayerCharacter.takeDamage playerSmallVulnerable).x =
        playerSmallVulnerable.map.playerStartingPosition.1 ∧
      (PlayerCharacter.takeDamage playerSmallVulnerable).y =
        playerSmallVulnerable.map.playerStartingPosition.2 ∧
      (PlayerCharacter.takeDamage playerSmallVulnerable).dx = 0 ∧
      (PlayerCharacter.takeDamage playerSmallVulnerable).dy = 0) :=
  ⟨(c7_take_damage playerSmallInvincible).1 (by decide),
   (c7_take_damage playerBig).2.1 (by decide) (by decide),
   (c7_take_damage playerSmallVulnerable).2.2 (by decide) (by decide)⟩

/-- C8: the code evaluated at the failing input. With two consecutive
below-the-map NPCs, one coordinator pass removes only the first: the
iterator advances past the element that slid into the removed slot, so
the second below-bound NPC is still in the roster afterwards (and its
state machine did not run), while the player is untouched. -/
theorem c8_consecutive_fallen_npc_skipped :
    gameLogicNPCs openMap playerBig [fallenNpcA, fallenNpcB] =
      (playerBig, [fallenNpcB]) ∧
    fallenNpcB.y + fallenNpcB.heightOffset >
      openMap.mapHeight * MAP_TILE_SIZE := by
  constructor
  · rfl
  · decide

/-- Out-of-bounds pixel lookups return the -1 sentinel. -/
theorem getTileNumberAt_oob (m : Map) (x y : ℤ)
    (h : m.outOfBoundsAt x y) : m.getTileNumberAt x y = -1 := by
  unfold Map.outOfBoundsAt at h
  unfold Map.getTileNumberAt Map.getTileNumber Tileset.getTileCoordsAt
  dsimp only
  rw [if_pos h]

/-- C9: tile lookups outside [0, mapWidth) x [0, mapHeight) return the -1
sentinel; isSolid(-1) is false and isNonSolid(-1) is true; and a footprint
all of whose eight sample points convert to out-of-bounds tile coordinates
is never reported as colliding, whatever dy is. -/
theorem c9_oob_sentinel (m : Map) (tx ty : ℤ) (s : GameCharacter)
    (x y : ℤ)
    (hb : tx < 0 ∨ ty < 0 ∨ tx ≥ m.mapWidth ∨ ty ≥ m.mapHeight)
    (h1 : s.map.outOfBoundsAt (x + s.widthOffset) (y + s.heightOffset))
    (h2 : s.map.outOfBoundsAt (x + (CHARACTER_TILE_SIZE - 1) - s.widthOffset)
      (y + s.heightOffset))
    (h3 : s.map.outOfBoundsAt (x + s.widthOffset)
      (y + (CHARACTER_TILE_SIZE - 1)))
    (h4 : s.map.outOfBoundsAt (x + (CHARACTER_TILE_SIZE - 1) - s.widthOffset)
      (y + (CHARACTER_TILE_SIZE - 1)))
    (h5 : s.map.outOfBoundsAt (x + s.widthOffset)
      (y + CHARACTER_TILE_SIZE / 2))
    (h6 : s.map.outOfBoundsAt (x + (CHARACTER_TILE_SIZE - 1) - s.widthOffset)
      (y + CHARACTER_TILE_SIZE / 2))
    (h7 : s.map.outOfBoundsAt (x + CHARACTER_TILE_SIZE / 2)
      (y + s.heightOffset))
    (h8 : s.map.outOfBoundsAt (x + CHARACTER_TILE_SIZE / 2)
      (y + (CHARACTER_TILE_SIZE - 1))) :
    m.getTileNumber tx ty = -1 ∧ Tileset.isSolid (-1) = false ∧
      Tileset.isNonSolid (-1) = true ∧ s.isColliding x y = false := by
  have g1 := getTileNumberAt_oob _ _ _ h1
  have g2 := getTileNumberAt_oob _ _ _ h2
  have g3 := getTileNumberAt_oob _ _ _ h3
  have g4 := getTileNumberAt_oob _ _ _ h4
  have g5 := getTileNumberAt_oob _ _ _ h5
  have g6 := getTileNumberAt_oob _ _ _ h6
  have g7 := getTileNumberAt_oob _ _ _ h7
  have g8 := getTileNumberAt_oob _ _ _ h8
  have hsolid : Tileset.isSolid (-1) = false := by decide
  have htop : TOP_SOLID_TILES.contains (-1) = false := by decide
  have htop2 : (-1 : ℤ) ∉ TOP_SOLID_TILES := by decide
  refine ⟨?_, hsolid, by decide, ?_⟩
  · unfold Map.getTileNumber
    rw [if_pos hb]
  · simp [GameCharacter.isColliding, GameCharacter.solidCollision,
      Map.isSolidAt, g1, g2, g3, g4, g5, g6, g7, g8, hsolid, htop, htop2]

/-- C9 witness: a character deep in negative coordinates. -/
theorem c9_oob_sentinel_witness :
    openMap.getTileNumber (-3) 4 = -1 ∧ Tileset.isSolid (-1) = false ∧
      Tileset.isNonSolid (-1) = true ∧
      farOutChar.isColliding (-1000) (-1000) = false :=
  c9_oob_sentinel openMap (-3) 4 farOutChar (-1000) (-1000) (by decide)
    (by decide) (by decide) (by decide) (by decide) (by decide) (by decide)
    (by decide) (by decide)

/-- C10: with at least two stances, stance indices in range, and the
player's construction stance count, one move() keeps currentStance within
[0, stances - 1] from any moveCount. -/
theorem c10_stance_bounds (s : GameCharacter) (h1 : 2 ≤ s.stances)
    (h2 : 0 ≤ s.currentStance) (h3 : s.currentStance ≤ s.stances - 1)
    (h4 : s.ID = PLAYER → s.stances = PLAYER_STANCES) :
    0 ≤ s.move.currentStance ∧ s.move.currentStance ≤ s.stances - 1 := by
  have key : ∀ (pm : ℤ) (g : Bool), 0 ≤ (s.stanceUpdate pm g).1 ∧
      (s.stanceUpdate pm g).1 ≤ s.stances - 1 := by
    intro pm g
    simp only [PLAYER, PLAYER_STANCES] at h4
    unfold GameCharacter.stanceUpdate
    dsimp only
    rcases eq_or_ne s.ID 0 with hp | hp
    · have h5 : s.stances = 3 := h4 hp
      simp only [hp, PLAYER, NINJI, PLAYER_JUMPING_STANCE,
        DEFAULT_PIXELS_PER_STANCE_CHANGE]
      split_ifs <;> omega
    · simp only [PLAYER, NINJI, PLAYER_JUMPING_STANCE,
        DEFAULT_PIXELS_PER_STANCE_CHANGE]
      split_ifs <;> omega
  exact key _ _

/-- C10 witness: the resting NPC (two stances) stays in range. -/
theorem c10_stance_bounds_witness :
    0 ≤ npcAtRest.move.currentStance ∧
      npcAtRest.move.currentStance ≤ npcAtRest.stances - 1 :=
  c10_stance_bounds npcAtRest (by decide) (by decide) (by decide)
    (by decide)

end Toads
